import Mathlib

/-!
Verification of the blogicum blog application (django_sprint4).

The development shallowly embeds the Django views of
`blogicum/blog/views.py` and the forms of `blogicum/blog/forms.py`.
The database is a snapshot value (`DB`); each view handler is a pure
function from the request data and the snapshot to a response and a
possibly updated snapshot.  Django ORM lookups are translated to list
operations:
  - `filter(**conditions)` becomes `List.filter` with a boolean predicate;
  - `get_object_or_404` / `pk` lookup becomes `List.find?` (a `none`
    result is the 404 response);
  - the `pub_date__date__lt` lookup compares only the calendar-date
    component of the timestamp, as Django's `__date` transform does;
  - `annotate(comment_count=Count('comments'))` pairs each post with the
    number of comments pointing at it;
  - `order_by` becomes a stable insertion sort by descending `pub_date`.
-/

namespace Blogicum

/-- A timestamp split into its calendar date (days) and its time of day
(seconds within the day), ordered lexicographically.  The split component
is what Django's `__date` lookup extracts. -/
structure DateTime where
  date : Nat
  tod : Nat
deriving DecidableEq

/-- Comparison `a ≤ b` on timestamps. -/
def dtLe (a b : DateTime) : Bool :=
  a.date < b.date || (a.date == b.date && a.tod ≤ b.tod)

/-- Strict comparison `a < b` on timestamps. -/
def dtLt (a b : DateTime) : Bool :=
  a.date < b.date || (a.date == b.date && a.tod < b.tod)

/-- Modelled from the spec: the `User` model (framework-provided identity,
not in `src/`).  Fields beyond the identity are the ones `UserEditForm`
edits: first name, last name, last login, email. -/
structure User where
  id : Nat
  username : String
  first_name : String := ""
  last_name : String := ""
  email : String := ""
  last_login : Option DateTime := none
deriving DecidableEq

/-- Modelled from the spec: the `Category` model (`blog/models.py` is not
in `src/`): a slug and an `is_published` flag. -/
structure Category where
  id : Nat
  slug : String
  is_published : Bool
deriving DecidableEq

/-- Modelled from the spec: the `Post` model (`blog/models.py` is not in
`src/`): title, body text, publish timestamp, `is_published` flag, owning
author, optional category.  The optional location is omitted: it is only
ever eager-loaded, never consulted by the embedded logic. -/
structure Post where
  id : Nat
  title : String := ""
  text : String := ""
  pub_date : DateTime
  is_published : Bool
  author : User
  category : Option Category := none
deriving DecidableEq

/-- Modelled from the spec: the `Comment` model (`blog/models.py` is not
in `src/`): text, creation timestamp, exactly one post and one author. -/
structure Comment where
  id : Nat
  text : String := ""
  created_at : DateTime
  post_id : Nat
  author : User
deriving DecidableEq

/-- A snapshot of the database tables. -/
structure DB where
  posts : List Post
  categories : List Category
  comments : List Comment
  users : List User
deriving DecidableEq

/-- The request data the embedded views consult: `request.user` is `none`
for an anonymous (unauthenticated) visitor. -/
structure Request where
  user : Option User
deriving DecidableEq

/-- Named URL targets used for redirects (`reverse`): the profile page,
the post detail page, the post detail page with the `#comments` anchor,
and the login page. -/
inductive Url where
  | profile (username : String)
  | postDetail (post_id : Nat)
  | postDetailComments (post_id : Nat)
deriving DecidableEq

/-- The response outcomes the claims distinguish: a 404, a redirect to
the login page (`login_required`), a redirect to a named URL, and `ok`
(the view proceeds to its normal rendering / mutation). -/
inductive Response where
  | notFound
  | redirectToLogin
  | redirectTo (u : Url)
  | ok
deriving DecidableEq

/-- Stable insertion of `a` into `l`, placing `a` before the first
element `b` with `r a b`. -/
def insertOrd {α : Type} (r : α → α → Bool) (a : α) : List α → List α
  | [] => [a]
  | b :: l => if r a b then a :: b :: l else b :: insertOrd r a l

/-- Stable insertion sort by the relation `r`. -/
def sortOrd {α : Type} (r : α → α → Bool) : List α → List α
  | [] => []
  | a :: l => insertOrd r a (sortOrd r l)

/-- Strictly-descending-by-`pub_date` relation, the embedding of
`Post._meta.ordering`.  Modelled from the spec: `blog/models.py` is not
in `src/`; the spec says the filter always orders by descending publish
date. -/
def postBefore (a b : Post) : Bool :=
  dtLt b.pub_date a.pub_date

/-- The `comment_count` annotation of a post: the number of comments in
the snapshot that belong to it. -/
def commentCount (db : DB) (p : Post) : Nat :=
  db.comments.countP (fun c => c.post_id == p.id)

/-- Embedding of `get_filtered_posts` (`blog/views.py`).  `manager` is the
base collection, `conds` the extra keyword equality filters.  When
`ban_delayed` the filter adds `pub_date__date__lt = timezone.now()`, a
calendar-date comparison; when `only_published` it adds
`is_published = True`.  The result is annotated with `comment_count` and
ordered by `Post._meta.ordering` (descending publish date). -/
def get_filtered_posts (db : DB) (manager : List Post) (now : DateTime)
    (conds : Post → Bool)
    (only_published : Bool := true) (ban_delayed : Bool := true) :
    List (Post × Nat) :=
  (sortOrd postBefore
    (manager.filter (fun p =>
      conds p
      && (!ban_delayed || decide (p.pub_date.date < now.date))
      && (!only_published || p.is_published)))).map
    (fun p => (p, commentCount db p))

/-- Embedding of `PostListView.get_queryset`: the main index queryset,
`get_filtered_posts(Post.objects, category__is_published=True)`.  The
`category__is_published` lookup follows the foreign key, so a post with
no category never matches. -/
def postList_queryset (db : DB) (now : DateTime) : List (Post × Nat) :=
  get_filtered_posts db db.posts now
    (fun p => match p.category with
      | some c => c.is_published
      | none => false)

/-- Embedding of `CategoryPostsListView.get_queryset`: resolve the
category by `get_object_or_404(Category, slug=…, is_published=True)`
(`none` is the 404), then filter the posts of that category with the
default flags. -/
def categoryPosts_queryset (db : DB) (slug : String) (now : DateTime) :
    Option (Category × List (Post × Nat)) :=
  match db.categories.find? (fun c => c.slug == slug && c.is_published) with
  | none => none
  | some cat =>
      some (cat,
        get_filtered_posts db
          (db.posts.filter (fun p => match p.category with
            | some c => c.id == cat.id
            | none => false))
          now (fun _ => true))

/-- Embedding of `PostDetailView.dispatch`: resolve the post by pk (404
when absent), then 404 when the post is not `is_published` and the
requester is anonymous or is not the author; otherwise render. -/
def postDetail_dispatch (db : DB) (req : Request) (post_id : Nat) :
    Response :=
  match db.posts.find? (fun p => p.id == post_id) with
  | none => Response.notFound
  | some post =>
    if !post.is_published &&
        (match req.user with
         | none => true
         | some u => decide (u ≠ post.author)) then
      Response.notFound
    else
      Response.ok

/-- The data a comment request body may carry.  Besides the text it may
carry attacker-chosen `author` and `post` values; `CommentForm`
(`blog/forms.py`) lists only `('text',)`, so cleaning keeps the text
alone. -/
structure CommentBody where
  text : String
  author_field : Option User := none
  post_field : Option Nat := none
deriving DecidableEq

/-- Embedding of `CommentForm` cleaning: of the body only the `text`
field is accepted. -/
def CommentForm_clean (b : CommentBody) : String :=
  b.text

/-- The model-field data `PostForm` accepts: every `Post` field except
the primary key and the excluded `author`. -/
structure PostFormData where
  title : String := ""
  text : String := ""
  pub_date : DateTime
  is_published : Bool := true
  category : Option Category := none
deriving DecidableEq

/-- The data a post request body may carry: the form fields plus an
attacker-chosen `author` value. -/
structure PostBody extends PostFormData where
  author_field : Option User := none
deriving DecidableEq

/-- Embedding of `PostForm` cleaning (`blog/forms.py`,
`exclude = ('author',)`): the author value of the body is dropped. -/
def PostForm_clean (b : PostBody) : PostFormData :=
  b.toPostFormData

/-- Apply cleaned `PostForm` data to an existing post (the save step of
an update): every field but `id` and `author` is overwritten. -/
def applyPostForm (d : PostFormData) (p : Post) : Post :=
  { p with title := d.title, text := d.text, pub_date := d.pub_date,
           is_published := d.is_published, category := d.category }

/-- Embedding of `PostCreateView`: `login_required`, then `form_valid`
forces `instance.author = request.user` and saves a new post built from
the cleaned form data; the success redirect is the requester's profile
page (`get_success_url`). -/
def postCreate (db : DB) (req : Request) (body : PostBody) (new_id : Nat) :
    Response × DB × Option Post :=
  match req.user with
  | none => (Response.redirectToLogin, db, none)
  | some u =>
    let d := PostForm_clean body
    let p : Post :=
      { id := new_id, title := d.title, text := d.text,
        pub_date := d.pub_date, is_published := d.is_published,
        author := u, category := d.category }
    (Response.redirectTo (Url.profile u.username),
     { db with posts := db.posts ++ [p] }, some p)

/-- Embedding of `PostUpdateView.dispatch` and the subsequent save: an
anonymous requester is redirected to the login page; then the post is
resolved by pk (404 when absent); a requester who is not the author is
redirected to the post detail page and nothing is modified; the author
proceeds and the cleaned form data is saved. -/
def postUpdate (db : DB) (req : Request) (post_id : Nat) (body : PostBody) :
    Response × DB :=
  match req.user with
  | none => (Response.redirectToLogin, db)
  | some u =>
    match db.posts.find? (fun p => p.id == post_id) with
    | none => (Response.notFound, db)
    | some post =>
      if post.author ≠ u then
        (Response.redirectTo (Url.postDetail post_id), db)
      else
        (Response.ok,
         { db with posts := db.posts.map (fun p =>
             if p.id == post_id then applyPostForm (PostForm_clean body) p
             else p) })

/-- Embedding of `PostDeleteView.dispatch` and the subsequent delete:
`login_required`, pk resolution, redirect of a non-author to the post
detail page with nothing deleted, and deletion for the author. -/
def postDelete (db : DB) (req : Request) (post_id : Nat) :
    Response × DB :=
  match req.user with
  | none => (Response.redirectToLogin, db)
  | some u =>
    match db.posts.find? (fun p => p.id == post_id) with
    | none => (Response.notFound, db)
    | some post =>
      if post.author ≠ u then
        (Response.redirectTo (Url.postDetail post_id), db)
      else
        (Response.ok,
         { db with posts := db.posts.filter (fun p => !(p.id == post_id)) })

/-- Embedding of `CommentCreateView`: `login_required`, `get_post`
resolves the post by the `post_id` of the URL path (404 when absent),
`form_valid` forces `instance.post` to that post and `instance.author`
to the requester, and the success redirect is the post detail page with
the `#comments` anchor. -/
def commentCreate (db : DB) (req : Request) (post_id : Nat)
    (body : CommentBody) (new_id : Nat) (now : DateTime) :
    Response × DB × Option Comment :=
  match req.user with
  | none => (Response.redirectToLogin, db, none)
  | some u =>
    match db.posts.find? (fun p => p.id == post_id) with
    | none => (Response.notFound, db, none)
    | some post =>
      let c : Comment :=
        { id := new_id, text := CommentForm_clean body,
          created_at := now, post_id := post.id, author := u }
      (Response.redirectTo (Url.postDetailComments post_id),
       { db with comments := db.comments ++ [c] }, some c)

/-- Embedding of `CommentUpdateView`: `login_required`, comment pk
resolution, redirect of a non-author to the post detail page of the
URL's `post_id` with nothing modified; for the author, `form_valid`
re-resolves the post from the URL path and saves the cleaned text. -/
def commentUpdate (db : DB) (req : Request) (post_id comment_id : Nat)
    (body : CommentBody) : Response × DB :=
  match req.user with
  | none => (Response.redirectToLogin, db)
  | some u =>
    match db.comments.find? (fun c => c.id == comment_id) with
    | none => (Response.notFound, db)
    | some comment =>
      if comment.author ≠ u then
        (Response.redirectTo (Url.postDetail post_id), db)
      else
        match db.posts.find? (fun p => p.id == post_id) with
        | none => (Response.notFound, db)
        | some post =>
          (Response.ok,
           { db with comments := db.comments.map (fun c =>
               if c.id == comment_id then
                 { c with text := CommentForm_clean body,
                          post_id := post.id, author := u }
               else c) })

/-- Embedding of `CommentDeleteView.dispatch` and the subsequent delete:
`login_required`, comment pk resolution, redirect of a non-author to the
post detail page of the URL's `post_id` with nothing deleted, deletion
for the author. -/
def commentDelete (db : DB) (req : Request) (post_id comment_id : Nat) :
    Response × DB :=
  match req.user with
  | none => (Response.redirectToLogin, db)
  | some u =>
    match db.comments.find? (fun c => c.id == comment_id) with
    | none => (Response.notFound, db)
    | some comment =>
      if comment.author ≠ u then
        (Response.redirectTo (Url.postDetail post_id), db)
      else
        (Response.ok,
         { db with comments :=
             db.comments.filter (fun c => !(c.id == comment_id)) })

/-- Resolution of the profile user in `UserProfileView.dispatch`:
`get_object_or_404(get_user_model(), username=…)`. -/
def profileOwner (db : DB) (username : String) : Option User :=
  db.users.find? (fun v => v.username == username)

/-- The `is_owner` flag of `UserProfileView.dispatch`: the requester is
authenticated and equals the profile user. -/
def profileIsOwner (req : Request) (pu : User) : Bool :=
  match req.user with
  | none => false
  | some u => u == pu

/-- Embedding of `UserProfileView.get_queryset` (with the 404 of
`dispatch`): the owner gets `get_filtered_posts` with
`only_published=False, ban_delayed=False`; everyone else gets the
default flags.  Both branches filter by `author__username`. -/
def userProfile_queryset (db : DB) (req : Request) (username : String)
    (now : DateTime) : Option (List (Post × Nat)) :=
  match profileOwner db username with
  | none => none
  | some pu =>
    if profileIsOwner req pu then
      some (get_filtered_posts db db.posts now
        (fun p => p.author.username == username) false false)
    else
      some (get_filtered_posts db db.posts now
        (fun p => p.author.username == username))

/-- The data a profile-edit request may carry: the `UserEditForm` fields
(first name, last name, last login, email) plus attacker-chosen target
identifiers that the view never reads. -/
structure UserEditBody where
  first_name : String := ""
  last_name : String := ""
  email : String := ""
  last_login : Option DateTime := none
  username_field : Option String := none
  id_field : Option Nat := none
deriving DecidableEq

/-- Apply cleaned `UserEditForm` data (`fields = ('first_name',
'last_name', 'last_login', 'email')`) to a user record: identity
(`id`, `username`) is untouched. -/
def applyUserEdit (b : UserEditBody) (v : User) : User :=
  { v with first_name := b.first_name, last_name := b.last_name,
           email := b.email, last_login := b.last_login }

/-- Embedding of `UserUpdateView`: `login_required`, then `get_object`
returns `self.request.user` unconditionally — the view reads no
identifier from the URL (`url_kwargs` is ignored) or the body — and the
form is saved onto that record. -/
def userUpdate (db : DB) (req : Request) (body : UserEditBody)
    (url_kwargs : List (String × String)) : Response × DB :=
  match req.user, url_kwargs with
  | none, _ => (Response.redirectToLogin, db)
  | some u, _ =>
    (Response.ok,
     { db with users := db.users.map (fun v =>
         if v.id == u.id then applyUserEdit body v else v) })

/-- The public-visibility predicate stated by the spec (not a definition
of the source): `is_published ∧ pub_date ≤ now ∧ category.is_published`.
It is compared against what the views actually check. -/
def spec_publicly_visible (now : DateTime) (p : Post) : Bool :=
  p.is_published && dtLe p.pub_date now &&
    (match p.category with
     | some c => c.is_published
     | none => false)

/-! Helper lemmas about the filter pipeline. -/

/-- Insertion keeps exactly the old elements plus the new one. -/
theorem mem_insertOrd {α : Type} (r : α → α → Bool) (a x : α)
    (l : List α) : x ∈ insertOrd r a l ↔ x = a ∨ x ∈ l := by
  induction l with
  | nil => simp [insertOrd]
  | cons b t ih =>
    simp only [insertOrd]
    split
    · simp
    · simp only [List.mem_cons, ih]
      tauto

/-- Sorting keeps exactly the elements of the input. -/
theorem mem_sortOrd {α : Type} (r : α → α → Bool) (x : α)
    (l : List α) : x ∈ sortOrd r l ↔ x ∈ l := by
  induction l with
  | nil => simp [sortOrd]
  | cons b t ih => simp [sortOrd, mem_insertOrd, ih]

/-- Membership in the posts of a `get_filtered_posts` result, for
arbitrary flags: the base membership, the extra conditions, and the two
flag-guarded conditions. -/
theorem mem_get_filtered_posts (db : DB) (manager : List Post)
    (now : DateTime) (conds : Post → Bool) (op bd : Bool) (p : Post) :
    p ∈ (get_filtered_posts db manager now conds op bd).map Prod.fst ↔
      p ∈ manager ∧ conds p = true
        ∧ (bd = true → p.pub_date.date < now.date)
        ∧ (op = true → p.is_published = true) := by
  simp only [get_filtered_posts, List.map_map, List.mem_map,
    Function.comp, mem_sortOrd, List.mem_filter]
  constructor
  · rintro ⟨q, ⟨hq, hcond⟩, rfl⟩
    simp only [Bool.and_eq_true, Bool.or_eq_true, Bool.not_eq_true',
      decide_eq_true_eq] at hcond
    refine ⟨hq, hcond.1.1, ?_, ?_⟩
    · intro hbd
      rcases hcond.1.2 with h | h
      · simp [hbd] at h
      · exact h
    · intro hop
      rcases hcond.2 with h | h
      · simp [hop] at h
      · exact h
  · rintro ⟨hq, hc, hbd, hop⟩
    refine ⟨p, ⟨hq, ?_⟩, rfl⟩
    simp only [Bool.and_eq_true, Bool.or_eq_true, Bool.not_eq_true',
      decide_eq_true_eq]
    cases bd <;> cases op <;> simp_all

/-- Membership in the posts of a `get_filtered_posts` result with the
default flags (`only_published = ban_delayed = true`). -/
theorem mem_public_filter (db : DB) (manager : List Post)
    (now : DateTime) (conds : Post → Bool) (p : Post) :
    p ∈ (get_filtered_posts db manager now conds).map Prod.fst ↔
      p ∈ manager ∧ conds p = true ∧ p.is_published = true
        ∧ p.pub_date.date < now.date := by
  rw [mem_get_filtered_posts]
  simp
  tauto

/-! Concrete fixtures for the witnesses and counterexamples. -/

/-- A sample author. -/
def uAlice : User := { id := 1, username := "a" }

/-- A sample visitor, different from the author. -/
def uBob : User := { id := 2, username := "b" }

/-- A published category. -/
def catPub : Category := { id := 1, slug := "c", is_published := true }

/-- An unpublished category. -/
def catHidden : Category := { id := 2, slug := "h", is_published := false }

/-- A future-dated post (publish date day 100), published flag set,
published category, authored by Alice. -/
def pFuture : Post :=
  { id := 1, pub_date := ⟨100, 0⟩, is_published := true,
    author := uAlice, category := some catPub }

/-- An unpublished post authored by Alice. -/
def pHidden : Post :=
  { id := 3, pub_date := ⟨10, 0⟩, is_published := false, author := uAlice }

/-- C1 counterexample: the claim says the detail view answers 404
whenever the post fails any part of the public-visibility predicate and
the viewer is not the author.  Against the code it fails: `pFuture` has
a future `pub_date` (not publicly visible at day 50), Bob is not the
author, yet `PostDetailView.dispatch` serves the page, because the
dispatch checks only `is_published`. -/
theorem C1_counterexample :
    spec_publicly_visible ⟨50, 0⟩ pFuture = false ∧
    (some uBob : Option User) ≠ some pFuture.author ∧
    postDetail_dispatch ⟨[pFuture], [catPub], [], [uAlice, uBob]⟩
      ⟨some uBob⟩ 1 = Response.ok := by
  decide

/-- C1 amended: the post detail view responds 404 exactly when the post
has `is_published = false` and the requester is not its author (anonymous
or a different user); `pub_date` and the category's publication are not
consulted by the detail gate. -/
theorem C1_detail_gate (db : DB) (req : Request) (post_id : Nat)
    (post : Post)
    (hfind : db.posts.find? (fun p => p.id == post_id) = some post) :
    postDetail_dispatch db req post_id = Response.notFound ↔
      post.is_published = false ∧
        ∀ u, req.user = some u → u ≠ post.author := by
  unfold postDetail_dispatch
  rw [hfind]
  cases hu : req.user with
  | none => cases hpub : post.is_published <;> simp [hpub]
  | some u =>
    cases hpub : post.is_published <;>
      by_cases hau : u = post.author <;> simp [hpub, hau]

/-- C1 witness: the amended gate evaluated on a concrete unpublished
post viewed by a non-author. -/
theorem C1_detail_gate_witness :
    postDetail_dispatch ⟨[pHidden], [], [], [uAlice, uBob]⟩
        ⟨some uBob⟩ 3 = Response.notFound ↔
      pHidden.is_published = false ∧
        ∀ u, (Request.mk (some uBob)).user = some u →
          u ≠ pHidden.author :=
  C1_detail_gate ⟨[pHidden], [], [], [uAlice, uBob]⟩ ⟨some uBob⟩ 3
    pHidden (by decide)

/-- A post published earlier on the current day (day 10, second 5),
published flag set, published category, authored by Alice. -/
def pToday : Post :=
  { id := 4, pub_date := ⟨10, 5⟩, is_published := true,
    author := uAlice, category := some catPub }

/-- A snapshot holding only `pToday`. -/
def dbToday : DB := ⟨[pToday], [catPub], [], [uAlice, uBob]⟩

/-- C2 counterexample: the claim says `ban_delayed` keeps exactly the
posts with `pub_date < now`.  Against the code it fails: `pToday` has
`pub_date` strictly earlier than `now` (same day, earlier second) and
satisfies every other filter, yet it is excluded, because the code's
`pub_date__date__lt` lookup compares calendar dates only. -/
theorem C2_counterexample :
    dtLt pToday.pub_date ⟨10, 6⟩ = true ∧
    pToday.is_published = true ∧
    pToday ∉ (get_filtered_posts dbToday [pToday] ⟨10, 6⟩
      (fun _ => true)).map Prod.fst := by
  decide

/-- C2 amended: with `ban_delayed = true` (and the default
`only_published = true`) the output of `get_filtered_posts` contains
exactly the posts of the base collection that satisfy the other filters
and whose publish timestamp's calendar date is strictly earlier than the
current date; a post dated today or later is excluded regardless of
`is_published`, and a post whose date is before today is not excluded on
date grounds. -/
theorem C2_date_filter (db : DB) (base : List Post) (now : DateTime)
    (conds : Post → Bool) (p : Post) :
    p ∈ (get_filtered_posts db base now conds).map Prod.fst ↔
      p ∈ base ∧ conds p = true ∧ p.is_published = true ∧
        p.pub_date.date < now.date :=
  mem_public_filter db base now conds p

/-- A post by Alice in the unpublished category, published flag set,
publish date well in the past. -/
def pHiddenCat : Post :=
  { id := 5, pub_date := ⟨10, 0⟩, is_published := true,
    author := uAlice, category := some catHidden }

/-- A snapshot holding only `pHiddenCat` and the two users. -/
def dbHiddenCat : DB := ⟨[pHiddenCat], [catHidden], [], [uAlice, uBob]⟩

/-- C3 counterexample: the claim says a non-owner viewing a profile sees
exactly the owner's publicly visible posts (published, past-dated,
published category).  Against the code it fails: `pHiddenCat` sits in an
unpublished category, so it is not publicly visible, yet Bob sees it on
Alice's profile, because the non-owner branch never filters on the
category's publication. -/
theorem C3_counterexample :
    spec_publicly_visible ⟨20, 0⟩ pHiddenCat = false ∧
    (some uBob : Option User) ≠ some uAlice ∧
    pHiddenCat ∈ ((userProfile_queryset dbHiddenCat ⟨some uBob⟩ "a"
      ⟨20, 0⟩).getD []).map Prod.fst := by
  decide

/-- C3 amended: on a profile page that resolves (the username exists),
the listed posts are exactly the profile user's posts when the requester
is the owner; for any other requester they are exactly the profile
user's posts with `is_published = true` and a publish date strictly
before the current date — the category's publication status is not
checked, and the date comparison is by calendar date. -/
theorem C3_profile (db : DB) (req : Request) (username : String)
    (now : DateTime) (pu : User) (l : List (Post × Nat)) (p : Post)
    (hpu : profileOwner db username = some pu)
    (hq : userProfile_queryset db req username now = some l) :
    p ∈ l.map Prod.fst ↔
      p ∈ db.posts ∧ p.author.username = username ∧
        (profileIsOwner req pu = true ∨
          (p.is_published = true ∧ p.pub_date.date < now.date)) := by
  simp only [userProfile_queryset, hpu] at hq
  cases ho : profileIsOwner req pu with
  | true =>
    simp only [ho, if_true, Option.some.injEq] at hq
    subst hq
    rw [mem_get_filtered_posts]
    simp
  | false =>
    simp only [ho, Bool.false_eq_true, if_false, Option.some.injEq] at hq
    subst hq
    rw [mem_public_filter]
    simp

/-- C3 witness: the amended profile characterisation evaluated for the
owner herself viewing her profile. -/
theorem C3_profile_witness :
    pHiddenCat ∈ ((userProfile_queryset dbHiddenCat ⟨some uAlice⟩ "a"
        ⟨20, 0⟩).getD []).map Prod.fst ↔
      pHiddenCat ∈ dbHiddenCat.posts ∧
        pHiddenCat.author.username = "a" ∧
        (profileIsOwner ⟨some uAlice⟩ uAlice = true ∨
          (pHiddenCat.is_published = true ∧
            pHiddenCat.pub_date.date < (DateTime.mk 20 0).date)) :=
  C3_profile dbHiddenCat ⟨some uAlice⟩ "a" ⟨20, 0⟩ uAlice
    ((userProfile_queryset dbHiddenCat ⟨some uAlice⟩ "a" ⟨20, 0⟩).getD [])
    pHiddenCat (by decide) (by decide)

/-- A snapshot for comment creation: one post (`pToday`, id 4), no
comments yet. -/
def dbComments : DB := ⟨[pToday], [catPub], [], [uAlice, uBob]⟩

/-- C4: a created comment is attached to the post resolved from the
URL's `post_id` and to the authenticated requester; the body's
attacker-chosen author/post values cannot influence either, since
`CommentForm` accepts only the text field. -/
theorem C4_comment_create (db : DB) (req : Request) (post_id : Nat)
    (body : CommentBody) (new_id : Nat) (now : DateTime) (u : User)
    (resp : Response) (db2 : DB) (c : Comment)
    (hu : req.user = some u)
    (h : commentCreate db req post_id body new_id now =
      (resp, db2, some c)) :
    c.post_id = post_id ∧ c.author = u ∧ c.text = body.text := by
  unfold commentCreate at h
  rw [hu] at h
  cases hfind : db.posts.find? (fun p => p.id == post_id) with
  | none => rw [hfind] at h; simp at h
  | some post =>
    rw [hfind] at h
    have hid : post.id = post_id := by
      have h2 := List.find?_some hfind
      simpa using h2
    simp only [Prod.mk.injEq, Option.some.injEq] at h
    obtain ⟨-, -, hc⟩ := h
    subst hc
    exact ⟨hid, rfl, rfl⟩

/-- C4 witness: a concrete comment creation where the body names a
different author and a different post; the stored comment still belongs
to post 4 and to Bob, with the body's text. -/
theorem C4_comment_create_witness :
    (Comment.mk 7 "hi" ⟨30, 0⟩ 4 uBob).post_id = 4 ∧
    (Comment.mk 7 "hi" ⟨30, 0⟩ 4 uBob).author = uBob ∧
    (Comment.mk 7 "hi" ⟨30, 0⟩ 4 uBob).text = "hi" :=
  C4_comment_create dbComments ⟨some uBob⟩ 4
    ⟨"hi", some uAlice, some 99⟩ 7 ⟨30, 0⟩ uBob
    (Response.redirectTo (Url.postDetailComments 4))
    { dbComments with
        comments := dbComments.comments ++ [Comment.mk 7 "hi" ⟨30, 0⟩ 4 uBob] }
    (Comment.mk 7 "hi" ⟨30, 0⟩ 4 uBob) rfl (by decide)

/-- A post (id 1) and a comment on it (id 9), both authored by Alice,
for the mutation-authorisation witnesses. -/
def pMut : Post :=
  { id := 1, pub_date := ⟨10, 0⟩, is_published := true,
    author := uAlice, category := some catPub }

/-- Alice's comment (id 9) on `pMut`. -/
def cMut : Comment :=
  { id := 9, text := "t", created_at := ⟨11, 0⟩, post_id := 1,
    author := uAlice }

/-- The snapshot for the mutation-authorisation witnesses. -/
def dbMut : DB := ⟨[pMut], [catPub], [cMut], [uAlice, uBob]⟩

/-- C5: on the four mutation views (post update/delete, comment
update/delete), an anonymous requester is redirected to the login page,
and an authenticated requester who is not the resource's author is
redirected to the corresponding post detail page; in both cases the
snapshot is returned unchanged (nothing is modified or deleted). -/
theorem C5_mutation_auth (db : DB) (req : Request) (pid cid : Nat)
    (pbody : PostBody) (cbody : CommentBody) :
    (req.user = none →
      postUpdate db req pid pbody = (Response.redirectToLogin, db) ∧
      postDelete db req pid = (Response.redirectToLogin, db) ∧
      commentUpdate db req pid cid cbody =
        (Response.redirectToLogin, db) ∧
      commentDelete db req pid cid = (Response.redirectToLogin, db)) ∧
    (∀ u post, req.user = some u →
      db.posts.find? (fun p => p.id == pid) = some post →
      post.author ≠ u →
      postUpdate db req pid pbody =
        (Response.redirectTo (Url.postDetail pid), db) ∧
      postDelete db req pid =
        (Response.redirectTo (Url.postDetail pid), db)) ∧
    (∀ u comment, req.user = some u →
      db.comments.find? (fun c => c.id == cid) = some comment →
      comment.author ≠ u →
      commentUpdate db req pid cid cbody =
        (Response.redirectTo (Url.postDetail pid), db) ∧
      commentDelete db req pid cid =
        (Response.redirectTo (Url.postDetail pid), db)) := by
  refine ⟨?_, ?_, ?_⟩
  · intro h
    simp [postUpdate, postDelete, commentUpdate, commentDelete, h]
  · intro u post hu hf hne
    simp [postUpdate, postDelete, hu, hf, hne]
  · intro u comment hu hf hne
    simp [commentUpdate, commentDelete, hu, hf, hne]

/-- C5 witness: the authorisation outcomes on a concrete snapshot, for
an anonymous requester and for Bob attempting to mutate Alice's post
and comment. -/
theorem C5_mutation_auth_witness :
    (postUpdate dbMut ⟨none⟩ 1 ⟨{ pub_date := ⟨10, 0⟩ }, none⟩ =
        (Response.redirectToLogin, dbMut) ∧
      postDelete dbMut ⟨none⟩ 1 = (Response.redirectToLogin, dbMut) ∧
      commentUpdate dbMut ⟨none⟩ 1 9 ⟨"x", none, none⟩ =
        (Response.redirectToLogin, dbMut) ∧
      commentDelete dbMut ⟨none⟩ 1 9 =
        (Response.redirectToLogin, dbMut)) ∧
    (postUpdate dbMut ⟨some uBob⟩ 1 ⟨{ pub_date := ⟨10, 0⟩ }, none⟩ =
        (Response.redirectTo (Url.postDetail 1), dbMut) ∧
      postDelete dbMut ⟨some uBob⟩ 1 =
        (Response.redirectTo (Url.postDetail 1), dbMut)) ∧
    (commentUpdate dbMut ⟨some uBob⟩ 1 9 ⟨"x", none, none⟩ =
        (Response.redirectTo (Url.postDetail 1), dbMut) ∧
      commentDelete dbMut ⟨some uBob⟩ 1 9 =
        (Response.redirectTo (Url.postDetail 1), dbMut)) :=
  ⟨(C5_mutation_auth dbMut ⟨none⟩ 1 9 ⟨{ pub_date := ⟨10, 0⟩ }, none⟩
      ⟨"x", none, none⟩).1 rfl,
   (C5_mutation_auth dbMut ⟨some uBob⟩ 1 9 ⟨{ pub_date := ⟨10, 0⟩ }, none⟩
      ⟨"x", none, none⟩).2.1 uBob pMut rfl (by decide) (by decide),
   (C5_mutation_auth dbMut ⟨some uBob⟩ 1 9 ⟨{ pub_date := ⟨10, 0⟩ }, none⟩
      ⟨"x", none, none⟩).2.2 uBob cMut rfl (by decide) (by decide)⟩

/-- C6: a post with `is_published = false` is absent from the main index
listing, from every category listing that resolves, and from a profile
listing shown to a requester who is not the owner — each of these runs
`get_filtered_posts` with the default `only_published = true`. -/
theorem C6_unpublished_hidden (db : DB) (now : DateTime) (slug : String)
    (req : Request) (username : String) (p : Post)
    (hp : p.is_published = false) :
    p ∉ (postList_queryset db now).map Prod.fst ∧
    (∀ cat l, categoryPosts_queryset db slug now = some (cat, l) →
      p ∉ l.map Prod.fst) ∧
    (∀ pu l, profileOwner db username = some pu →
      profileIsOwner req pu = false →
      userProfile_queryset db req username now = some l →
      p ∉ l.map Prod.fst) := by
  refine ⟨?_, ?_, ?_⟩
  · intro hmem
    rw [postList_queryset, mem_public_filter] at hmem
    rw [hp] at hmem
    simp at hmem
  · intro cat l hq hmem
    simp only [categoryPosts_queryset] at hq
    cases hfind : db.categories.find?
        (fun c => c.slug == slug && c.is_published) with
    | none => rw [hfind] at hq; cases hq
    | some cat2 =>
      rw [hfind] at hq
      simp only [Option.some.injEq, Prod.mk.injEq] at hq
      obtain ⟨-, hl⟩ := hq
      subst hl
      rw [mem_public_filter] at hmem
      rw [hp] at hmem
      simp at hmem
  · intro pu l hpu ho hq hmem
    simp only [userProfile_queryset, hpu, ho, Bool.false_eq_true,
      if_false, Option.some.injEq] at hq
    subst hq
    rw [mem_public_filter] at hmem
    rw [hp] at hmem
    simp at hmem

/-- An unpublished post by Alice in the published category. -/
def pUnpub : Post :=
  { id := 6, pub_date := ⟨10, 0⟩, is_published := false,
    author := uAlice, category := some catPub }

/-- The snapshot for the hidden-post witness. -/
def dbUnpub : DB := ⟨[pUnpub], [catPub], [], [uAlice, uBob]⟩

/-- C6 witness: `pUnpub` is absent from the concrete index listing, the
concrete category listing, and the concrete profile listing Bob sees. -/
theorem C6_unpublished_hidden_witness :
    pUnpub ∉ (postList_queryset dbUnpub ⟨40, 0⟩).map Prod.fst ∧
    pUnpub ∉ ([] : List (Post × Nat)).map Prod.fst ∧
    pUnpub ∉ ([] : List (Post × Nat)).map Prod.fst :=
  ⟨(C6_unpublished_hidden dbUnpub ⟨40, 0⟩ "c" ⟨some uBob⟩ "a" pUnpub
      rfl).1,
   (C6_unpublished_hidden dbUnpub ⟨40, 0⟩ "c" ⟨some uBob⟩ "a" pUnpub
      rfl).2.1 catPub [] (by decide),
   (C6_unpublished_hidden dbUnpub ⟨40, 0⟩ "c" ⟨some uBob⟩ "a" pUnpub
      rfl).2.2 uAlice [] (by decide) (by decide) (by decide)⟩

/-- C7: the category listing answers 404 (resolves to `none`) when no
published category carries the requested slug — in particular when the
category exists but is unpublished — and when it resolves, the resolved
category matches the slug, is published, and every listed post belongs
to that category. -/
theorem C7_category (db : DB) (slug : String) (now : DateTime) :
    ((∀ c ∈ db.categories, ¬(c.slug = slug ∧ c.is_published = true)) →
      categoryPosts_queryset db slug now = none) ∧
    (∀ cat l, categoryPosts_queryset db slug now = some (cat, l) →
      cat.slug = slug ∧ cat.is_published = true ∧
        ∀ pr ∈ l, ∃ c, pr.1.category = some c ∧ c.id = cat.id) := by
  constructor
  · intro h
    have hfind : db.categories.find?
        (fun c => c.slug == slug && c.is_published) = none := by
      rw [List.find?_eq_none]
      intro c hc
      have h2 := h c hc
      simp only [Bool.and_eq_true, beq_iff_eq]
      tauto
    simp only [categoryPosts_queryset, hfind]
  · intro cat l hq
    simp only [categoryPosts_queryset] at hq
    cases hfind : db.categories.find?
        (fun c => c.slug == slug && c.is_published) with
    | none => rw [hfind] at hq; cases hq
    | some cat2 =>
      rw [hfind] at hq
      simp only [Option.some.injEq, Prod.mk.injEq] at hq
      obtain ⟨hcat, hl⟩ := hq
      subst hcat
      subst hl
      have hc2 := List.find?_some hfind
      simp only [Bool.and_eq_true, beq_iff_eq] at hc2
      refine ⟨hc2.1, hc2.2, ?_⟩
      intro pr hpr
      obtain ⟨q, hq3, hpair⟩ := List.mem_map.mp hpr
      rw [mem_sortOrd] at hq3
      obtain ⟨hq4, -⟩ := List.mem_filter.mp hq3
      obtain ⟨-, hcatm⟩ := List.mem_filter.mp hq4
      subst hpair
      cases hcq : q.category with
      | none => rw [hcq] at hcatm; cases hcatm
      | some c =>
        rw [hcq] at hcatm
        exact ⟨c, by simp [hcq], by simpa using hcatm⟩

/-- C7 witness: on the concrete snapshot, the slug of a missing
category answers 404, and the published category `catPub` resolves with
its single post belonging to it. -/
theorem C7_category_witness :
    categoryPosts_queryset dbMut "z" ⟨40, 0⟩ = none ∧
    (catPub.slug = "c" ∧ catPub.is_published = true ∧
      ∀ pr ∈ [(pMut, 1)], ∃ c, pr.1.category = some c ∧
        c.id = catPub.id) :=
  ⟨(C7_category dbMut "z" ⟨40, 0⟩).1 (by decide),
   (C7_category dbMut "c" ⟨40, 0⟩).2 catPub [(pMut, 1)] (by decide)⟩

/-- C8: a successfully created post has the authenticated requester as
its author — the body's attacker-chosen author value is dropped by
`PostForm`, which excludes the author field — and the success response
redirects to that requester's profile page. -/
theorem C8_post_create (db : DB) (req : Request) (body : PostBody)
    (new_id : Nat) (u : User) (resp : Response) (db2 : DB) (post : Post)
    (hu : req.user = some u)
    (h : postCreate db req body new_id = (resp, db2, some post)) :
    post.author = u ∧
      resp = Response.redirectTo (Url.profile u.username) := by
  unfold postCreate at h
  rw [hu] at h
  simp only [PostForm_clean, Prod.mk.injEq, Option.some.injEq] at h
  obtain ⟨hr, -, hp⟩ := h
  subst hp
  exact ⟨rfl, hr.symm⟩

/-- C8 witness: Bob creates a post whose body names Alice as author;
the stored post is authored by Bob and the redirect goes to Bob's
profile. -/
theorem C8_post_create_witness :
    (Post.mk 8 "T" "B" ⟨10, 0⟩ true uBob (some catPub)).author = uBob ∧
    Response.redirectTo (Url.profile "b") =
      Response.redirectTo (Url.profile uBob.username) :=
  C8_post_create dbMut ⟨some uBob⟩
    ⟨⟨"T", "B", ⟨10, 0⟩, true, some catPub⟩, some uAlice⟩ 8 uBob
    (Response.redirectTo (Url.profile "b"))
    { dbMut with posts :=
        dbMut.posts ++ [Post.mk 8 "T" "B" ⟨10, 0⟩ true uBob (some catPub)] }
    (Post.mk 8 "T" "B" ⟨10, 0⟩ true uBob (some catPub)) rfl (by decide)

/-- C9: the profile-edit view always edits the requester's own record:
the URL kwargs are ignored entirely, every user record with a different
id is returned unchanged, and no record's identity (id, username)
changes — so neither a URL identifier nor a body value can target
another user's profile. -/
theorem C9_user_update (db : DB) (req : Request) (body : UserEditBody)
    (kw1 kw2 : List (String × String)) (u : User)
    (hu : req.user = some u) :
    userUpdate db req body kw1 = userUpdate db req body kw2 ∧
    (∀ v ∈ db.users, v.id ≠ u.id →
      v ∈ (userUpdate db req body kw1).2.users) ∧
    (∀ v ∈ (userUpdate db req body kw1).2.users,
      ∃ w ∈ db.users, v.id = w.id ∧ v.username = w.username) := by
  refine ⟨?_, ?_, ?_⟩
  · simp [userUpdate, hu]
  · intro v hv hne
    have h1 : v ∈ db.users.map
        (fun w => if w.id == u.id then applyUserEdit body w else w) := by
      refine List.mem_map.mpr ⟨v, hv, ?_⟩
      have h2 : ¬((v.id == u.id) = true) := by simpa using hne
      rw [if_neg h2]
    simpa [userUpdate, hu] using h1
  · intro v hv
    simp only [userUpdate, hu] at hv
    obtain ⟨w, hw, hvw⟩ := List.mem_map.mp hv
    refine ⟨w, hw, ?_⟩
    subst hvw
    by_cases hid : (w.id == u.id) = true <;> simp [hid, applyUserEdit]

/-- C9 witness: Bob submits a profile edit whose body and URL kwargs
name Alice; Alice's record is untouched and every identity is
preserved. -/
theorem C9_user_update_witness :
    userUpdate dbMut ⟨some uBob⟩ ⟨"F", "L", "e", none, some "a", some 1⟩
        [("username", "a")] =
      userUpdate dbMut ⟨some uBob⟩ ⟨"F", "L", "e", none, some "a", some 1⟩
        [] ∧
    (∀ v ∈ dbMut.users, v.id ≠ uBob.id →
      v ∈ (userUpdate dbMut ⟨some uBob⟩
        ⟨"F", "L", "e", none, some "a", some 1⟩
        [("username", "a")]).2.users) ∧
    (∀ v ∈ (userUpdate dbMut ⟨some uBob⟩
        ⟨"F", "L", "e", none, some "a", some 1⟩
        [("username", "a")]).2.users,
      ∃ w ∈ dbMut.users, v.id = w.id ∧ v.username = w.username) :=
  C9_user_update dbMut ⟨some uBob⟩ ⟨"F", "L", "e", none, some "a", some 1⟩
    [("username", "a")] [] uBob rfl

/-- C10: a post with no category never appears on the main index: the
index filters on `category__is_published = True`, a lookup through the
foreign key that a null category cannot satisfy. -/
theorem C10_null_category (db : DB) (now : DateTime) (p : Post)
    (hc : p.category = none) :
    p ∉ (postList_queryset db now).map Prod.fst := by
  intro hmem
  rw [postList_queryset, mem_public_filter] at hmem
  simp [hc] at hmem

/-- A published, past-dated post without a category. -/
def pNoCat : Post :=
  { id := 12, pub_date := ⟨10, 0⟩, is_published := true,
    author := uAlice, category := none }

/-- The snapshot for the null-category witness. -/
def dbNoCat : DB := ⟨[pNoCat], [catPub], [], [uAlice]⟩

/-- C10 witness: the concrete category-less post is absent from the
concrete index listing. -/
theorem C10_null_category_witness :
    pNoCat ∉ (postList_queryset dbNoCat ⟨40, 0⟩).map Prod.fst :=
  C10_null_category dbNoCat ⟨40, 0⟩ pNoCat rfl

end Blogicum
